import Mathlib

set_option autoImplicit false

namespace SpeechToText

/-- A transcript segment as received in the verbose_json transcription
response: a start time, an end time and the transcribed text. Times are
modelled in centiseconds (hundredths of a second), so that the two-decimal
formatting used by the app is exact. -/
structure Segment where
  start : Nat
  «end» : Nat
  text : String
deriving DecidableEq

/-- The transcription result returned by the external call: the full text
(transcription.text) and the ordered list of segments
(transcription.segments), lines 33 to 34 of main.py. -/
structure TranscriptionResult where
  text : String
  segments : List Segment
deriving DecidableEq

/-- The request the app builds for the external transcription service,
lines 24 to 29 of main.py: the audio bytes plus the model, language and
response_format arguments. -/
structure TranscriptionRequest where
  file : List Nat
  model : String
  language : String
  response_format : String
deriving DecidableEq

/-- Lines 24 to 29 of main.py: the request sent to the transcription
service for a given uploaded audio file. The model, language and
response_format arguments are string literals in the source. -/
def transcription_request (audio : List Nat) : TranscriptionRequest :=
  { file := audio
    model := "whisper-large-v3"
    language := "vi"
    response_format := "verbose_json" }

/-- Lookup in a Python dict modelled as an association list:
d.get(k) returns the value stored at the first (and only) entry whose key
equals k, or none when the key is absent. -/
def dict_get : List (String × String) → String → Option String
  | [], _ => none
  | (k0, v0) :: rest, k => if k0 = k then some v0 else dict_get rest k

/-- Assignment d[k] = v on a Python dict modelled as an association list:
it overwrites the value at an existing key in place, preserving insertion
order, and appends a new entry otherwise. -/
def dict_insert : List (String × String) → String → String → List (String × String)
  | [], k, v => [(k, v)]
  | (k0, v0) :: rest, k, v =>
      if k0 = k then (k0, v) :: rest else (k0, v0) :: dict_insert rest k v

/-- Line 142 of main.py: the edit-slot key of a segment,
segment_ followed by the printed start time. The key is derived from the
start field alone. -/
def segment_key (seg : Segment) : String :=
  "segment_" ++ toString seg.start

/-- Two-decimal rendering of a time given in centiseconds, matching the
.2f format applied to the float seconds value in the source. -/
def format2dp (t : Nat) : String :=
  toString (t / 100) ++ "." ++ (if t % 100 < 10 then "0" else "") ++ toString (t % 100)

/-- Line 160 of main.py: the Time column of a row, the start and end
times rendered to two decimals and joined by a dash. -/
def time_range (seg : Segment) : String :=
  format2dp seg.start ++ " - " ++ format2dp seg.«end»

/-- Lines 143 to 146 of main.py: the text displayed for a segment, namely
edited_segments.get(segment_key, segment text): the stored edit when the
key is present, the original segment text otherwise. -/
def initial_text (es : List (String × String)) (seg : Segment) : String :=
  (dict_get es (segment_key seg)).getD seg.text

/-- A row of segments_data, line 159 to 162 of main.py: the dict with the
Time and Content columns of the exported table. -/
structure Row where
  Time : String
  Content : String
deriving DecidableEq

/-- Lines 134 to 162 of main.py: one render pass over the segment list.
For each segment in order the displayed text is computed from the current
edited_segments dict, written back into the dict under the segment key
(line 157), and appended to segments_data as a row. Returns the dict
after the pass together with the rows. -/
def render_segments : List (String × String) → List Segment → List (String × String) × List Row
  | es, [] => (es, [])
  | es, seg :: rest =>
      let t := initial_text es seg
      let next := render_segments (dict_insert es (segment_key seg) t) rest
      (next.1, { Time := time_range seg, Content := t } :: next.2)

/-- Line 157 of main.py with fresh user input: a user edit of the text
area of a segment stores the new text in edited_segments under the
segment key. -/
def edit_segment (es : List (String × String)) (seg : Segment) (t : String) : List (String × String) :=
  dict_insert es (segment_key seg) t

/-- A sequence of per-segment user edits applied in order. -/
def apply_edits (es : List (String × String)) : List (Segment × String) → List (String × String)
  | [] => es
  | (seg, t) :: rest => apply_edits (edit_segment es seg t) rest

/-- Models st.text_area, line 109 and 148 of main.py (external widget):
its content is the stored widget state, namely the last text the user
typed under this key, when present, and the supplied default value
otherwise. -/
def text_area (stored : Option String) (value : String) : String :=
  stored.getD value

/-- Lines 109 to 115 of main.py: the displayed full transcript is the
content of the transcript_display text area, whose default value is the
original transcript. -/
def displayed_full_text (edited : Option String) (transcript : String) : String :=
  text_area edited transcript

/-- The st.session_state entries the app reads and writes: the original
transcript and segments from the last successful transcription, the
mirrored full-text edit, and the per-segment edit dict (None models a key
absent from session_state). -/
structure SessionState where
  transcript : Option String
  segments : List Segment
  edited_transcript : Option String
  edited_segments : Option (List (String × String))
deriving DecidableEq

/-- The session state of a fresh session: no key is set. -/
def init_state : SessionState :=
  { transcript := none, segments := [], edited_transcript := none, edited_segments := none }

/-- Lines 16 to 34 of main.py: process_audio forwards the file to the
external service; on success it stores the returned segments in
session_state (line 33) and returns the text, and on failure the raised
error propagates before any session_state write is reached. The outcome
of the external call is a parameter. -/
def process_audio (s : SessionState) (call : Except String TranscriptionResult) :
    Except String (SessionState × String) :=
  match call with
  | Except.error e => Except.error e
  | Except.ok r => Except.ok ({ s with segments := r.segments }, r.text)

/-- Lines 87 to 100 of main.py: the Process Audio button handler. On
success the returned text is stored as the transcript; on an exception
the state is left as it was and an error message is shown. Returns the
new state and whether st.error was called. -/
def process_click (s : SessionState) (call : Except String TranscriptionResult) :
    SessionState × Bool :=
  match process_audio s call with
  | Except.ok (s1, t) => ({ s1 with transcript := some t }, false)
  | Except.error _ => (s, true)

/-- Line 68 of main.py: the upload size limit in bytes, 20 * 1024 * 1024. -/
def upload_size_limit : Nat := 20 * 1024 * 1024

/-- Lines 61 to 100 of main.py: the flow after a file is uploaded. An
oversized file is rejected with an error before the process button is
even offered; otherwise, when the button is pressed, the transcription
call runs. Returns the new state, whether the external call was made,
and whether an error message was shown. -/
def handle_upload (s : SessionState) (size : Nat) (pressed : Bool)
    (call : Except String TranscriptionResult) : SessionState × Bool × Bool :=
  if size > upload_size_limit then (s, false, true)
  else if pressed then
    let pc := process_click s call
    (pc.1, true, pc.2)
  else (s, false, false)

/-- Lines 130 to 131 of main.py: edited_segments is created empty only
when the key is not yet in session_state; an existing dict is kept. -/
def ensure_edited_segments (s : SessionState) : SessionState :=
  match s.edited_segments with
  | none => { s with edited_segments := some [] }
  | some _ => s

/-- A user edit to the text area of the segment at position i of the
displayed list, written back into edited_segments as on line 157. Out of
range positions and a missing dict leave the state unchanged. -/
def edit_segment_state (s : SessionState) (i : Nat) (t : String) : SessionState :=
  match s.segments.get? i, s.edited_segments with
  | some seg, some es => { s with edited_segments := some (edit_segment es seg t) }
  | _, _ => s

/-- The text displayed for the segment at position i of the current
result, per lines 141 to 146: the edited value when one is stored under
the segment key, the original text otherwise. -/
def displayed_segment_at (s : SessionState) (i : Nat) : Option String :=
  match s.segments.get? i with
  | some seg => some (initial_text (s.edited_segments.getD []) seg)
  | none => none

theorem dict_get_insert_self (l : List (String × String)) (k v : String) :
    dict_get (dict_insert l k v) k = some v := by
  induction l with
  | nil => simp [dict_insert, dict_get]
  | cons p rest ih =>
      obtain ⟨k0, v0⟩ := p
      by_cases h : k0 = k
      · simp [dict_insert, dict_get, h]
      · simp [dict_insert, dict_get, h, ih]

theorem dict_get_insert_ne (l : List (String × String)) (k k' v : String) (h : k' ≠ k) :
    dict_get (dict_insert l k v) k' = dict_get l k' := by
  induction l with
  | nil =>
      have hne : ¬ k = k' := fun hh => h hh.symm
      simp [dict_insert, dict_get, hne]
  | cons p rest ih =>
      obtain ⟨k0, v0⟩ := p
      by_cases hk : k0 = k
      · subst hk
        have hne : ¬ k0 = k' := fun hh => h hh.symm
        simp [dict_insert, dict_get, hne]
      · simp [dict_insert, dict_get, hk, ih]

theorem dict_insert_overwrite (l : List (String × String)) (k v1 v2 : String) :
    dict_insert (dict_insert l k v1) k v2 = dict_insert l k v2 := by
  induction l with
  | nil => simp [dict_insert]
  | cons p rest ih =>
      obtain ⟨k0, v0⟩ := p
      by_cases h : k0 = k
      · simp [dict_insert, h]
      · simp [dict_insert, h, ih]

theorem dict_insert_keys (l : List (String × String)) (k v : String) :
    (dict_insert l k v).map Prod.fst =
      if k ∈ l.map Prod.fst then l.map Prod.fst else l.map Prod.fst ++ [k] := by
  induction l with
  | nil => simp [dict_insert]
  | cons p rest ih =>
      obtain ⟨k0, v0⟩ := p
      by_cases hk : k0 = k
      · subst hk
        simp [dict_insert]
      · have hk' : ¬ k = k0 := fun hh => hk hh.symm
        by_cases hm : k ∈ rest.map Prod.fst
        · simp [dict_insert, hk, ih, hm, hk']
        · simp [dict_insert, hk, ih, hm, hk']

theorem dict_insert_keys_nodup (l : List (String × String)) (k v : String)
    (h : (l.map Prod.fst).Nodup) : ((dict_insert l k v).map Prod.fst).Nodup := by
  rw [dict_insert_keys]
  by_cases hm : k ∈ l.map Prod.fst
  · simpa [hm] using h
  · simp only [hm, if_false]
    exact h.append (List.nodup_singleton k) (by simpa [List.disjoint_singleton] using hm)

theorem render_segments_mono (segs : List Segment) :
    ∀ es k v, dict_get es k = some v → dict_get (render_segments es segs).1 k = some v := by
  induction segs with
  | nil =>
      intro es k v h
      simpa [render_segments] using h
  | cons seg rest ih =>
      intro es k v h
      simp only [render_segments]
      apply ih
      by_cases hk : k = segment_key seg
      · subst hk
        have ht : initial_text es seg = v := by
          simp [initial_text, h]
        rw [ht, dict_get_insert_self]
      · rw [dict_get_insert_ne _ _ _ _ hk]
        exact h

theorem render_segments_rows (segs : List Segment) :
    ∀ es, (render_segments es segs).2 =
      segs.map (fun seg => { Time := time_range seg
                             Content := initial_text (render_segments es segs).1 seg }) := by
  induction segs with
  | nil => simp [render_segments]
  | cons seg rest ih =>
      intro es
      simp only [render_segments, List.map_cons, List.cons.injEq]
      set t := initial_text es seg with ht
      constructor
      · have hstore : dict_get
            (render_segments (dict_insert es (segment_key seg) t) rest).1
            (segment_key seg) = some t :=
          render_segments_mono rest _ _ _ (dict_get_insert_self es _ _)
        simp [initial_text, hstore]
      · exact ih (dict_insert es (segment_key seg) t)

/-- The first transcription result of the reset-law scenario: one segment
starting at time 0. -/
def c2_r1 : TranscriptionResult :=
  { text := "hello", segments := [{ start := 0, «end» := 100, text := "hello" }] }

/-- The second transcription result of the reset-law scenario: an
unrelated transcript whose only segment also starts at time 0. -/
def c2_r2 : TranscriptionResult :=
  { text := "xin chao", segments := [{ start := 0, «end» := 100, text := "xin chao" }] }

/-- The session state after processing c2_r1, rendering, editing its only
segment to bye, and then processing c2_r2. -/
def c2_final : SessionState :=
  (process_click
    (edit_segment_state
      (ensure_edited_segments (process_click init_state (Except.ok c2_r1)).1) 0 "bye")
    (Except.ok c2_r2)).1

/-- Claim C1: the source derives the edit-slot key from the start value
alone (line 142), so two distinct segments sharing a start receive the
same SegmentKey, and an edit addressed at one changes the displayed text
of the other: the claimed disambiguation does not hold in the code. -/
theorem C1_start_key_collision :
    segment_key { start := 0, «end» := 100, text := "hello" } =
        segment_key { start := 0, «end» := 200, text := "world" }
    ∧ ({ start := 0, «end» := 100, text := "hello" } : Segment) ≠
        { start := 0, «end» := 200, text := "world" }
    ∧ initial_text
        (edit_segment [] { start := 0, «end» := 200, text := "world" } "X")
        { start := 0, «end» := 100, text := "hello" } = "X" := by
  refine ⟨rfl, by decide, by decide⟩

/-- Claim C2: ingesting a second result does not reset the edit state:
edited_segments survives process_click untouched (lines 130 to 131 only
create it when absent), so the segment of the new transcript that shares
a key with an edited segment of the old one displays the stale edit
instead of its own original text. -/
theorem C2_edits_leak_across_ingest :
    displayed_segment_at c2_final 0 = some "bye"
    ∧ displayed_segment_at c2_final 0 ≠ some "xin chao"
    ∧ (c2_r2.segments.get? 0).map Segment.text = some "xin chao"
    ∧ c2_final.edited_segments = some [("segment_0", "bye")] := by
  refine ⟨rfl, by decide, rfl, rfl⟩

/-- Claim C3: the merged view: the displayed full text is the recorded
edit when one is present and the original transcript otherwise, and the
displayed segment text is the stored edit under the segment key when
present and the original segment text otherwise; both are pure functions
of the result and the edit state. -/
theorem C3_merged_view (transcript : String) (edited : Option String)
    (es : List (String × String)) (seg : Segment) :
    (∀ t, edited = some t → displayed_full_text edited transcript = t)
    ∧ (edited = none → displayed_full_text edited transcript = transcript)
    ∧ (∀ t, dict_get es (segment_key seg) = some t → initial_text es seg = t)
    ∧ (dict_get es (segment_key seg) = none → initial_text es seg = seg.text) := by
  refine ⟨?_, ?_, ?_, ?_⟩
  · intro t h
    simp [displayed_full_text, text_area, h]
  · intro h
    simp [displayed_full_text, text_area, h]
  · intro t h
    simp [initial_text, h]
  · intro h
    simp [initial_text, h]

theorem C3_merged_view_witness :
    displayed_full_text (some "hi") "hello" = "hi"
    ∧ displayed_full_text none "hello" = "hello"
    ∧ initial_text [("segment_0", "hi")] { start := 0, «end» := 100, text := "hello" } = "hi"
    ∧ initial_text [] { start := 0, «end» := 100, text := "hello" } = "hello" :=
  ⟨(C3_merged_view "hello" (some "hi") [] { start := 0, «end» := 100, text := "hello" }).1
      "hi" rfl,
   (C3_merged_view "hello" none [] { start := 0, «end» := 100, text := "hello" }).2.1 rfl,
   (C3_merged_view "hello" none [("segment_0", "hi")]
      { start := 0, «end» := 100, text := "hello" }).2.2.1 "hi" (by decide),
   (C3_merged_view "hello" none [] { start := 0, «end» := 100, text := "hello" }).2.2.2 rfl⟩

/-- Claim C4: the exported table has one row per segment in display
order; the Content of each row is the displayed (edited or original)
text current at the render that builds the table, whose Time column is
the two-decimal start and end joined by a dash; instantiated on the
scenario of the spec, two segments with segment 0 edited to hi. -/
theorem C4_export_rows (es : List (String × String)) (segs : List Segment) :
    (render_segments es segs).2 =
      segs.map (fun seg => { Time := time_range seg
                             Content := initial_text (render_segments es segs).1 seg })
    ∧ (render_segments
        (edit_segment [] { start := 0, «end» := 100, text := "hello" } "hi")
        [{ start := 0, «end» := 100, text := "hello" },
         { start := 100, «end» := 200, text := "world" }]).2 =
      [{ Time := "0.00 - 1.00", Content := "hi" },
       { Time := "1.00 - 2.00", Content := "world" }] :=
  ⟨render_segments_rows segs es, by decide⟩

/-- Claim C5: a failed external transcription call leaves the whole
session state unchanged and surfaces an error message, and ingestion
(storing the new segments and transcript) happens exactly on the success
branch. -/
theorem C5_failure_preserves_state (s : SessionState) (e : String) (r : TranscriptionResult) :
    (process_click s (Except.error e)).1 = s
    ∧ (process_click s (Except.error e)).2 = true
    ∧ (process_click s (Except.ok r)).1 =
        { s with transcript := some r.text, segments := r.segments } :=
  ⟨rfl, rfl, rfl⟩

/-- Claim C6: an upload strictly larger than 20 MiB is rejected before
anything else happens: an error is shown, the external call is never
made, and the session state is unchanged. -/
theorem C6_oversized_upload_rejected (s : SessionState) (size : Nat) (pressed : Bool)
    (call : Except String TranscriptionResult) (h : size > upload_size_limit) :
    handle_upload s size pressed call = (s, false, true) := by
  simp [handle_upload, h]

theorem C6_oversized_upload_rejected_witness :
    20 * 1024 * 1024 + 1 > upload_size_limit
    ∧ handle_upload init_state (20 * 1024 * 1024 + 1) true
        (Except.ok { text := "hello", segments := [] }) = (init_state, false, true) :=
  ⟨by decide,
   C6_oversized_upload_rejected init_state (20 * 1024 * 1024 + 1) true
     (Except.ok { text := "hello", segments := [] }) (by decide)⟩

/-- Claim C7: after any sequence of per-segment edits, the rendered rows
keep exactly the original segment count and order: one row per segment
and the Time column lists the segments in source order. -/
theorem C7_order_and_count_preserved (es : List (String × String)) (segs : List Segment)
    (edits : List (Segment × String)) :
    (render_segments (apply_edits es edits) segs).2.length = segs.length
    ∧ (render_segments (apply_edits es edits) segs).2.map Row.Time = segs.map time_range := by
  constructor
  · rw [render_segments_rows]
    simp
  · rw [render_segments_rows]
    simp [List.map_map, Function.comp]

/-- Claim C8: a per-segment edit is idempotent, a later write to the same
key overwrites the earlier one (last write wins, state equality), the
written value is what the key then stores, and the dict keeps its keys
free of duplicates, so at most one edited value exists per segment key. -/
theorem C8_set_segment_text_algebra (es : List (String × String)) (seg : Segment)
    (t t' : String) :
    edit_segment (edit_segment es seg t) seg t = edit_segment es seg t
    ∧ edit_segment (edit_segment es seg t') seg t = edit_segment es seg t
    ∧ dict_get (edit_segment es seg t) (segment_key seg) = some t
    ∧ ((es.map Prod.fst).Nodup → ((edit_segment es seg t).map Prod.fst).Nodup) :=
  ⟨dict_insert_overwrite es (segment_key seg) t t,
   dict_insert_overwrite es (segment_key seg) t' t,
   dict_get_insert_self es (segment_key seg) t,
   fun h => dict_insert_keys_nodup es (segment_key seg) t h⟩

theorem C8_set_segment_text_algebra_witness :
    edit_segment (edit_segment [] { start := 0, «end» := 100, text := "hello" } "a")
        { start := 0, «end» := 100, text := "hello" } "a" =
      edit_segment [] { start := 0, «end» := 100, text := "hello" } "a"
    ∧ ((edit_segment [] { start := 0, «end» := 100, text := "hello" } "a").map Prod.fst).Nodup :=
  ⟨(C8_set_segment_text_algebra [] { start := 0, «end» := 100, text := "hello" } "a" "b").1,
   (C8_set_segment_text_algebra [] { start := 0, «end» := 100, text := "hello" } "a" "b").2.2.2
     (by simp)⟩

/-- Claim C9: editing to the empty string is a real edit distinct from no
edit: the displayed full text and the displayed segment text become the
empty string, not the original, and the fallback to the original happens
only when no edit is recorded under the key. -/
theorem C9_empty_edit_is_edit (transcript : String) (es : List (String × String))
    (seg : Segment) :
    displayed_full_text (some "") transcript = ""
    ∧ initial_text (edit_segment es seg "") seg = ""
    ∧ (dict_get es (segment_key seg) = none → initial_text es seg = seg.text) := by
  refine ⟨rfl, ?_, ?_⟩
  · simp [initial_text, edit_segment, dict_get_insert_self]
  · intro h
    simp [initial_text, h]

theorem C9_empty_edit_is_edit_witness :
    displayed_full_text (some "") "hello" = ""
    ∧ initial_text (edit_segment [] { start := 0, «end» := 100, text := "hello" } "")
        { start := 0, «end» := 100, text := "hello" } = ""
    ∧ initial_text [] { start := 0, «end» := 100, text := "hello" } = "hello" :=
  ⟨(C9_empty_edit_is_edit "hello" [] { start := 0, «end» := 100, text := "hello" }).1,
   (C9_empty_edit_is_edit "hello" [] { start := 0, «end» := 100, text := "hello" }).2.1,
   (C9_empty_edit_is_edit "hello" [] { start := 0, «end» := 100, text := "hello" }).2.2 rfl⟩

/-- Claim C10: every transcription request the app builds carries the
fixed language tag vi and the fixed model whisper-large-v3 (and the
verbose_json response format); no user input reaches these arguments. -/
theorem C10_fixed_language_and_model (audio : List Nat) :
    (transcription_request audio).language = "vi"
    ∧ (transcription_request audio).model = "whisper-large-v3"
    ∧ (transcription_request audio).response_format = "verbose_json" :=
  ⟨rfl, rfl, rfl⟩

end SpeechToText
